import Mathlib

/-
Shallow embedding of `src/abi-types-generator/src/converters/typescript/abi-generator.ts`
(class `AbiGenerator`).  Instance mutable fields (`_parametersAndReturnTypeInterfaces`,
`_events`, `_methodNames`) are threaded explicitly as a `GenState`; the mutable
`GeneratorContext` is threaded and returned; file-system and prettier effects are an
explicit `Env` plus an event trace.  Modules of this repository that are not under
`src/` (common/helpers, typescript/common/helpers, the two factories, the Provider
enum) are modelled from the spec and marked as such in their doc comments.
-/

set_option maxHeartbeats 1000000

namespace AbiGen

/-- Variant tag of one ABI declaration (`AbiItemType` enum, modelled from the spec §3:
constructor | function | event | other-ignored). -/
inductive AbiItemType
| constructorTag
| functionTag
| eventTag
| otherTag (tag : String)
deriving DecidableEq, Repr

/-- Text the enum value interpolates to in a template literal. -/
def AbiItemType.str : AbiItemType → String
| .constructorTag => "constructor"
| .functionTag => "function"
| .eventTag => "event"
| .otherTag t => t

/-- One ABI input (`AbiInput`): `components` is present for composite (tuple) inputs. -/
inductive AbiInput
| mk (name : String) (type : String) (indexed : Option Bool) (components : List AbiInput)

def AbiInput.name : AbiInput → String
| .mk n _ _ _ => n

def AbiInput.type : AbiInput → String
| .mk _ t _ _ => t

def AbiInput.indexed : AbiInput → Option Bool
| .mk _ _ ix _ => ix

def AbiInput.components : AbiInput → List AbiInput
| .mk _ _ _ cs => cs

/-- One ABI output (`AbiOutput`). -/
structure AbiOutput where
  name : String
  type : String

/-- One ABI declaration (`AbiItem`).  Optional fields are `Option`s as in the TS model. -/
structure AbiItem where
  type : AbiItemType
  name : String
  inputs : Option (List AbiInput)
  outputs : Option (List AbiOutput)
  payable : Option Bool
  constant : Option Bool
  stateMutability : Option String

/-- Result of `JSON.parse` on the ABI file content: a JSON array of items, or any other
JSON value (object, string, number, ...), which the source never rejects. -/
inductive AbiJson
| arr (items : List AbiItem)
| nonArray

/-- The item list the generator's `for (i < abi.length)` loops actually traverse: for a
non-array JSON value `abi.length` is `undefined` in JS, `i < undefined` is false, and the
loop bodies never run, so a non-array behaves as an empty item list. -/
def abiItemsOf : AbiJson → List AbiItem
| .arr items => items
| .nonArray => []

/-- Provider selection (`Provider` enum, modelled from the spec: two known values); the
`other` case models any unrecognized runtime value reaching the `default` branches. -/
inductive Provider
| web3
| ethers
| other (value : String)
deriving DecidableEq, Repr

def Provider.isKnown : Provider → Bool
| .web3 => true
| .ethers => true
| .other _ => false

/-- The prettier `Options` object, with the fields the source's defaults use. -/
structure PrettierOptions where
  parser : String
  trailingComma : String
  singleQuote : Bool
  bracketSpacing : Bool
  printWidth : Nat
deriving DecidableEq, Repr

/-- The caller-supplied run configuration (`GeneratorContext`).  Optional string fields
are `Option` (JS truthiness on `undefined`). -/
structure GeneratorContext where
  abiFileLocation : String
  name : Option String
  outputPathDirectory : Option String
  provider : Provider
  prettierOptions : Option PrettierOptions
  watch : Bool
deriving DecidableEq, Repr

/-- The three instance-scoped accumulator lists of `AbiGenerator`. -/
structure GenState where
  parametersAndReturnTypeInterfaces : List String
  events : List String
  methodNames : List String
deriving DecidableEq, Repr

/-- The `clearState` method: resets all three accumulators to `[]`. -/
def clearState (_s : GenState) : GenState :=
  { parametersAndReturnTypeInterfaces := [], events := [], methodNames := [] }

/-- The distinct `throw new Error(...)` sites of the source. -/
inductive GenError
| outputPathNotDirectory
| abiFileNotFound (path : String)
| abiFileNotJson (path : String)
| unknownProvider (value : String)
| prettierFailed
deriving DecidableEq, Repr

/-- Observable file-system effects of one `generate` run, in order of occurrence. -/
inductive Event
| checkedDir (path : String)
| readAbi (path : String)
| wrote (path : String) (content : String)
| watchRegistered (path : String)
deriving DecidableEq, Repr

/-- The generate response returned to the caller. -/
structure GenerateResponse where
  outputLocation : String
  abiJsonFileLocation : String
deriving DecidableEq, Repr

/-- The file system and prettier environment a run executes against. -/
structure Env where
  isDirectory : String → Bool
  fileExists : String → Bool
  parseFile : String → Option AbiJson
  prettierAccepts : PrettierOptions → Bool

/-- Prefix test on character lists (structural implementation of `String.startsWith`, so
that proofs can evaluate it). -/
def charsStartWith : List Char → List Char → Bool
| _, [] => true
| [], _ :: _ => false
| c :: cs, p :: ps => c = p && charsStartWith cs ps

/-- Structural `String.startsWith`. -/
def strStartsWith (s pat : String) : Bool :=
  charsStartWith s.toList pat.toList

/-- Structural `String.endsWith`. -/
def strEndsWith (s pat : String) : Bool :=
  charsStartWith s.toList.reverse pat.toList.reverse

/-- Splitting on a single separator character, JS `split` semantics (structural
implementation so that proofs can evaluate it). -/
def splitCharsAux (sep : Char) : List Char → List Char → List String
| [], cur => [String.mk cur.reverse]
| x :: xs, cur =>
  if x = sep then String.mk cur.reverse :: splitCharsAux sep xs []
  else splitCharsAux sep xs (x :: cur)

/-- Structural split of a string on one separator character. -/
def splitOnChar (sep : Char) (s : String) : List String :=
  splitCharsAux sep s.toList []

/-- Modelled from the spec: `Helpers.capitalize` (§4.2, missing common/helpers module) —
first character uppercased, rest untouched. -/
def capitalize (s : String) : String :=
  match s.toList with
  | [] => ""
  | c :: cs => String.mk (Char.toUpper c :: cs)

/-- Modelled from the spec: base tags of the Primitive Type Mapper (§4.1) — numeric tags
to a numeric hybrid type, bool to boolean, address/string/bytes to string. -/
def solidityBaseTsType (t : String) : String :=
  if t = "bool" then "boolean"
  else if t = "address" then "string"
  else if t = "string" then "string"
  else if strStartsWith t "bytes" then "string"
  else if strStartsWith t "uint" then "BigNumber"
  else if strStartsWith t "int" then "BigNumber"
  else "any"

/-- Fuel-bounded unwrapping of array suffixes; the fuel is the string length, enough for
every bracket pair. -/
def solidityTsTypeFuel : Nat → String → String
| 0, _ => "any"
| Nat.succ n, t =>
  if strEndsWith t "[]" then solidityTsTypeFuel n (t.dropRight 2) ++ "[]"
  else solidityBaseTsType t

/-- Modelled from the spec: `TypeScriptHelpers.getSolidityTsType` (Primitive Type Mapper,
§4.1, missing typescript/common/helpers module): arrays map to arrays of the mapped base,
unknown tags (the composite tag included) fall back to `any` and never abort the run. -/
def getSolidityTsType (t : String) : String :=
  solidityTsTypeFuel t.length t

/-- Modelled from the spec: `TypeScriptHelpers.buildInterface` — wraps the property text
into a named exported interface declaration. -/
def buildInterface (name : String) (properties : String) : String :=
  "export interface " ++ name ++ " \x7b" ++ properties ++ "\x7d"

/-- Modelled from the spec: `TypeScriptHelpers.buildType` — a name type enumerating the
given names as a string-literal union, empty when there are no names (§8: an empty
method-name/event-name type must still be declared). -/
def buildType (name : String) (values : List String) : String :=
  match values with
  | [] => "export type " ++ name ++ " = undefined;"
  | v :: vs =>
    "export type " ++ name ++ " = " ++
      String.intercalate " | " ((v :: vs).map (fun x => "\x22" ++ x ++ "\x22")) ++ ";"

/-- Modelled from the spec: `Web3Factory.buildWeb3Interfaces` (§4.5 provider preamble). -/
def web3BuildWeb3Interfaces (abiName : String) : String :=
  "export type " ++ abiName ++ "ContextBase = Web3ContractContext;"

/-- Modelled from the spec: `EthersFactory.buildEthersInterfaces` (§4.5 provider
preamble). -/
def ethersBuildEthersInterfaces (abiName : String) : String :=
  "export type " ++ abiName ++ "ContextBase = EthersContractContext;"

/-- Modelled from the spec: `Web3Factory.buildMethodReturnContext` — a pure function of
the inner type and the item (§4.5), shaping the web3 calling convention. -/
def web3BuildMethodReturnContext (innerType : String) (item : AbiItem) : String :=
  if item.constant = some true then
    ": MethodConstantReturnContext<" ++ innerType ++ ">"
  else
    ": MethodReturnContext<" ++ innerType ++ ">"

/-- Modelled from the spec: `EthersFactory.buildMethodReturnContext` — the ethers
promise-returning convention (§4.5). -/
def ethersBuildMethodReturnContext (innerType : String) (_item : AbiItem) : String :=
  ": Promise<" ++ innerType ++ ">"

/-- Modelled from the spec: `Web3Factory.buildEventInterfaceProperties` — one property per
event-variant item, keyed by event name (§4.5). -/
def web3BuildEventInterfaceProperties (items : List AbiItem) : String :=
  String.join (items.map (fun i =>
    if i.type = AbiItemType.eventTag then i.name ++ ": EventResponse;" else ""))

/-- Modelled from the spec: `EthersFactory.buildEventInterfaceProperties` (§4.5). -/
def ethersBuildEventInterfaceProperties (items : List AbiItem) : String :=
  String.join (items.map (fun i =>
    if i.type = AbiItemType.eventTag then i.name ++ ": EventFilter;" else ""))

/-- The `buildMethodReturnContext` dispatch of the source: provider switch with a throwing
`default` branch. -/
def buildMethodReturnContext (p : Provider) (type : String) (abiItem : AbiItem) :
    Except GenError String :=
  match p with
  | .web3 => .ok (web3BuildMethodReturnContext type abiItem)
  | .ethers => .ok (ethersBuildMethodReturnContext type abiItem)
  | .other v => .error (.unknownProvider v)

/-- JS template interpolation of an optional boolean field (`undefined` prints as such). -/
def showOptBool : Option Bool → String
| some true => "true"
| some false => "false"
| none => "undefined"

/-- JS template interpolation of an optional string field. -/
def showOptString : Option String → String
| some s => s
| none => "undefined"

/-- The `indexed || 'false'` expression: `some true` prints `true`, everything else the
string `false`. -/
def indexedDoc : Option Bool → String
| some true => "true"
| _ => "false"

/-- The `for` loop of `buildInterfacePropertyDocs` over the inputs, accumulating the
`@param` lines; unnamed inputs fall back to `parameter{index}`. -/
def paramDocsLoop : List AbiInput → Nat → String → String
| [], _, acc => acc
| inp :: rest, i, acc =>
  let inputName := if inp.name = "" then "parameter" ++ toString i else inp.name
  paramDocsLoop rest (i + 1)
    (acc ++ "\r\n* @param " ++ inputName ++ " Type: " ++ inp.type ++
      ", Indexed: " ++ indexedDoc inp.indexed)

/-- The `buildInterfacePropertyDocs` method: the structured comment block emitted before
every constructor/function property. -/
def buildInterfacePropertyDocs (abiItem : AbiItem) : String :=
  let paramsDocs :=
    match abiItem.inputs with
    | some inputs => paramDocsLoop inputs 0 ""
    | none => ""
  "\n         \x2f**\n            * Payable: " ++ showOptBool abiItem.payable ++
  "\n            * Constant: " ++ showOptBool abiItem.constant ++
  "\n            * StateMutability: " ++ showOptString abiItem.stateMutability ++
  "\n            * Type: " ++ abiItem.type.str ++ " " ++ paramsDocs ++
  "\n          *\x2f\n        "

/-- The `for` loop of `buildTupleParametersInterface` over the composite's components:
every component is mapped by the primitive mapper, the component's name used verbatim. -/
def tuplePropsLoop : List AbiInput → String → String
| [], acc => acc
| c :: rest, acc =>
  tuplePropsLoop rest (acc ++ c.name ++ ": " ++ getSolidityTsType c.type ++ ";")

/-- The `buildTupleParametersInterface` method: synthesizes `Capitalize(name)Request`,
appends it to the accumulator, and returns the reference name. -/
def buildTupleParametersInterface (name : String) (abiInput : AbiInput) (s : GenState) :
    String × GenState :=
  let interfaceName := capitalize name ++ "Request"
  let properties := tuplePropsLoop abiInput.components ""
  ( interfaceName
  , { s with parametersAndReturnTypeInterfaces :=
        s.parametersAndReturnTypeInterfaces ++ [buildInterface interfaceName properties] } )

/-- The `for` loop of `buildParameters`: a comma is inserted whenever the accumulated text
is longer than the opening parenthesis; unnamed inputs fall back to `parameter{index}`;
tuple-typed inputs delegate to the tuple expander, all others to the primitive mapper. -/
def buildParamsLoop (itemName : String) :
    List AbiInput → Nat → String → GenState → String × GenState
| [], _, acc, s => (acc, s)
| inp :: rest, i, acc, s =>
  let acc1 := if acc.length > 1 then acc ++ ", " else acc
  let inputName := if inp.name = "" then "parameter" ++ toString i else inp.name
  if inp.type = "tuple" then
    buildParamsLoop itemName rest (i + 1)
      (acc1 ++ inputName ++ ": " ++ (buildTupleParametersInterface itemName inp s).1)
      (buildTupleParametersInterface itemName inp s).2
  else
    buildParamsLoop itemName rest (i + 1)
      (acc1 ++ inputName ++ ": " ++ getSolidityTsType inp.type) s

/-- The `buildParameters` method. -/
def buildParameters (abiItem : AbiItem) (s : GenState) : String × GenState :=
  match abiItem.inputs with
  | some inputs =>
    ((buildParamsLoop abiItem.name inputs 0 "(" s).1 ++ ")",
      (buildParamsLoop abiItem.name inputs 0 "(" s).2)
  | none => ("(" ++ ")", s)

/-- The `outputs.map` loop of `buildPropertyReturnTypeInterface`: the output's name is
used verbatim (no unnamed fallback here). -/
def outputPropsLoop : List AbiOutput → String → String
| [], acc => acc
| o :: rest, acc =>
  outputPropsLoop rest (acc ++ o.name ++ ": " ++ getSolidityTsType o.type ++ ";")

/-- The `buildPropertyReturnTypeInterface` method: no outputs yields the wrapped `void`,
one output the wrapped mapped type, two or more push a `Capitalize(name)Response`
interface (before the wrap, so the push survives a provider error) and wrap its name. -/
def buildPropertyReturnTypeInterface (p : Provider) (abiItem : AbiItem) (s : GenState) :
    Except GenError String × GenState :=
  match abiItem.outputs with
  | none => (buildMethodReturnContext p "void" abiItem, s)
  | some [] => (buildMethodReturnContext p "void" abiItem, s)
  | some [o] => (buildMethodReturnContext p (getSolidityTsType o.type) abiItem, s)
  | some outputs =>
    let interfaceName := capitalize abiItem.name ++ "Response"
    let ouputProperties := outputPropsLoop outputs ""
    let s1 := { s with parametersAndReturnTypeInterfaces :=
        s.parametersAndReturnTypeInterfaces ++
          [buildInterface interfaceName ouputProperties] }
    (buildMethodReturnContext p interfaceName abiItem, s1)

/-- The `buildParametersAndReturnTypes` method: parameters first, then the return part. -/
def buildParametersAndReturnTypes (p : Provider) (abiItem : AbiItem) (s : GenState) :
    Except GenError String × GenState :=
  let parameters := (buildParameters abiItem s).1
  let s1 := (buildParameters abiItem s).2
  match buildPropertyReturnTypeInterface p abiItem s1 with
  | (.error e, s2) => (.error e, s2)
  | (.ok r, s2) => (.ok (parameters ++ r), s2)

/-- The `for` loop of `buildAbiInterface`: the method name is pushed before the
parameter/return build, so a thrown provider error leaves the pushed name behind. -/
def buildAbiProps (p : Provider) :
    List AbiItem → String → GenState → Except GenError String × GenState
| [], acc, s => (.ok acc, s)
| item :: rest, acc, s =>
  match item.type with
  | .constructorTag =>
    let acc1 := acc ++ buildInterfacePropertyDocs item
    let s1 := { s with methodNames := s.methodNames ++ ["new"] }
    (match buildParametersAndReturnTypes p item s1 with
     | (.error e, s2) => (.error e, s2)
     | (.ok t, s2) => buildAbiProps p rest (acc1 ++ "\x27new\x27" ++ t ++ ";") s2)
  | .functionTag =>
    let acc1 := acc ++ buildInterfacePropertyDocs item
    let s1 := { s with methodNames := s.methodNames ++ [item.name] }
    (match buildParametersAndReturnTypes p item s1 with
     | (.error e, s2) => (.error e, s2)
     | (.ok t, s2) => buildAbiProps p rest (acc1 ++ item.name ++ t ++ ";") s2)
  | .eventTag =>
    buildAbiProps p rest acc { s with events := s.events ++ [item.name] }
  | .otherTag _ =>
    buildAbiProps p rest acc s

/-- The `buildAbiInterface` method. -/
def buildAbiInterface (p : Provider) (abiName : String) (abi : AbiJson) (s : GenState) :
    Except GenError String × GenState :=
  match buildAbiProps p (abiItemsOf abi) "" s with
  | (.error e, s1) => (.error e, s1)
  | (.ok properties, s1) => (.ok (buildInterface abiName properties), s1)

/-- The `buildEventsType` method. -/
def buildEventsType (abiName : String) (s : GenState) : String :=
  buildType (abiName ++ "Events") s.events

/-- The `buildMethodNamesType` method. -/
def buildMethodNamesType (abiName : String) (s : GenState) : String :=
  buildType (abiName ++ "MethodNames") s.methodNames

/-- The `buildParametersAndReturnTypeInterfaces` method: concatenates the accumulated
auxiliary interface texts in registration order. -/
def buildParametersAndReturnTypeInterfacesText (s : GenState) : String :=
  String.join s.parametersAndReturnTypeInterfaces

/-- The `buildEventsInterface` method: provider switch with throwing default. -/
def buildEventsInterface (p : Provider) (abiName : String) (abiItems : List AbiItem) :
    Except GenError String :=
  let eventsInterfaceName := abiName ++ "EventsContext"
  match p with
  | .web3 =>
    .ok (buildInterface eventsInterfaceName (web3BuildEventInterfaceProperties abiItems))
  | .ethers =>
    .ok (buildInterface eventsInterfaceName (ethersBuildEventInterfaceProperties abiItems))
  | .other v => .error (.unknownProvider v)

/-- The provider switch at the top of `buildFullTypings` (provider preamble). -/
def providerPreamble (p : Provider) (abiName : String) : Except GenError String :=
  match p with
  | .web3 => .ok (web3BuildWeb3Interfaces abiName)
  | .ethers => .ok (ethersBuildEthersInterfaces abiName)
  | .other v => .error (.unknownProvider v)

/-- The `buildFullTypings` method: preamble, events type, events interface, method names
type, accumulated auxiliary interfaces, main interface, concatenated in that order. -/
def buildFullTypings (p : Provider) (abiName : String) (abi : AbiJson)
    (abiTypedInterface : String) (s : GenState) : Except GenError String :=
  match providerPreamble p abiName with
  | .error e => .error e
  | .ok typings =>
    match buildEventsInterface p abiName (abiItemsOf abi) with
    | .error e => .error e
    | .ok evIface =>
      .ok (typings ++ buildEventsType abiName s ++ evIface ++
        buildMethodNamesType abiName s ++
        buildParametersAndReturnTypeInterfacesText s ++ abiTypedInterface)

/-- Removal of every single-quote character from a string (`replace(/\'/g, '')`). -/
def removeQuotes (s : String) : String :=
  String.mk (s.toList.filter (fun c => c ≠ Char.ofNat 39))

/-- The `clearAllQuotesFromContextInfo` method: strips single quotes from the ABI file
location always, and from the output path directory when it is set. -/
def clearAllQuotesFromContextInfo (ctx : GeneratorContext) : GeneratorContext :=
  { ctx with
    abiFileLocation := removeQuotes ctx.abiFileLocation
    outputPathDirectory := ctx.outputPathDirectory.map removeQuotes }

/-- Modelled from the spec: `path.basename` — the segment after the last separator. -/
def basename (p : String) : String :=
  ((splitOnChar (Char.ofNat 47) p).getLast?).getD p

/-- Modelled from the spec: `path.dirname` — everything before the last separator. -/
def dirname (p : String) : String :=
  let parts := splitOnChar (Char.ofNat 47) p
  if parts.length ≤ 1 then "." else String.intercalate "/" parts.dropLast

/-- The `buildExecutingPath` method; `path.resolve(process.cwd(), p)` is modelled as the
identity, locations being taken as already resolved. -/
def buildExecutingPath (joinPath : String) : String := joinPath

/-- The `getAbiFileFullPathLocation` method. -/
def getAbiFileFullPathLocation (ctx : GeneratorContext) : String :=
  buildExecutingPath ctx.abiFileLocation

/-- The `getAbiFileLocationRawName` method: basename with everything from the first dot
stripped. -/
def getAbiFileLocationRawName (ctx : GeneratorContext) : String :=
  (splitOnChar (Char.ofNat 46) (basename ctx.abiFileLocation)).headD ""

/-- The `formatAbiName` method: split on `-`, capitalize, join, split on `.`, capitalize,
join. -/
def formatAbiName (name : String) : String :=
  let step1 := String.join ((splitOnChar (Char.ofNat 45) name).map capitalize)
  String.join ((splitOnChar (Char.ofNat 46) step1).map capitalize)

/-- The `getAbiName` method. -/
def getAbiName (ctx : GeneratorContext) : String :=
  match ctx.name with
  | some n => formatAbiName n
  | none => formatAbiName (getAbiFileLocationRawName ctx)

/-- The `getOutputPathDirectory` method. -/
def getOutputPathDirectory (ctx : GeneratorContext) : String :=
  match ctx.outputPathDirectory with
  | some d => d
  | none => dirname (getAbiFileFullPathLocation ctx)

/-- The `buildOutputLocation` method. -/
def buildOutputLocation (ctx : GeneratorContext) : String :=
  let name :=
    match ctx.name with
    | some n => n
    | none => getAbiFileLocationRawName ctx
  let outputPathDirectory := getOutputPathDirectory ctx
  if strEndsWith outputPathDirectory "/" then
    outputPathDirectory ++ name ++ ".ts"
  else
    buildExecutingPath (outputPathDirectory ++ "/" ++ name ++ ".ts")

/-- The `getDefaultPrettierOptions` method. -/
def getDefaultPrettierOptions : PrettierOptions :=
  { parser := "typescript", trailingComma := "es5", singleQuote := true,
    bracketSpacing := true, printWidth := 80 }

/-- The `getPrettierOptions` method: when caller options are present their `parser` field
is overwritten to `typescript` in place (the context is mutated), else the defaults. -/
def getPrettierOptions (ctx : GeneratorContext) : PrettierOptions × GeneratorContext :=
  match ctx.prettierOptions with
  | some po =>
    let po1 := { po with parser := "typescript" }
    (po1, { ctx with prettierOptions := some po1 })
  | none => (getDefaultPrettierOptions, ctx)

/-- The `getAbiJson` method: a missing file or a JSON parse failure throws; the parsed
value is returned, with no check that it is an array. -/
def getAbiJson (env : Env) (abiFileFullPath : String) :
    Except GenError AbiJson × List Event :=
  if env.fileExists abiFileFullPath then
    match env.parseFile abiFileFullPath with
    | some j => (.ok j, [Event.readAbi abiFileFullPath])
    | none => (.error (.abiFileNotJson abiFileFullPath), [Event.readAbi abiFileFullPath])
  else
    (.error (.abiFileNotFound abiFileFullPath), [])

/-- The `prettier.format` call with its fallback: formatting is modelled as the identity
on the text, the environment deciding which options objects the formatter accepts; a
rejection of the caller's options retries once with the defaults, a second rejection
propagates. -/
def formatText (env : Env) (opts : PrettierOptions) (text : String) :
    Except GenError String :=
  if env.prettierAccepts opts then .ok text
  else if env.prettierAccepts getDefaultPrettierOptions then .ok text
  else .error .prettierFailed

/-- The `generate` method: quote stripping, output-directory check, ABI load, building
(with `buildAbiInterface` evaluated before `buildFullTypings`, as JS argument order),
formatting with fallback, write, state clear, optional watch registration.  Returns the
result, the mutated context, the final accumulator state and the effect trace. -/
def generate (env : Env) (ctx0 : GeneratorContext) (s0 : GenState) :
    Except GenError GenerateResponse × GeneratorContext × GenState × List Event :=
  let ctx := clearAllQuotesFromContextInfo ctx0
  let outDir := getOutputPathDirectory ctx
  let tr0 := [Event.checkedDir outDir]
  if env.isDirectory outDir = false then
    (.error .outputPathNotDirectory, ctx, s0, tr0)
  else
    let abiPath := getAbiFileFullPathLocation ctx
    match getAbiJson env abiPath with
    | (.error e, tr1) => (.error e, ctx, s0, tr0 ++ tr1)
    | (.ok abi, tr1) =>
      let abiName := getAbiName ctx
      match buildAbiInterface ctx.provider abiName abi s0 with
      | (.error e, s1) => (.error e, ctx, s1, tr0 ++ tr1)
      | (.ok abiTypedInterface, s1) =>
        match buildFullTypings ctx.provider abiName abi abiTypedInterface s1 with
        | .error e => (.error e, ctx, s1, tr0 ++ tr1)
        | .ok fullTypings =>
          let opts := (getPrettierOptions ctx).1
          let ctx1 := (getPrettierOptions ctx).2
          match formatText env opts fullTypings with
          | .error e => (.error e, ctx1, s1, tr0 ++ tr1)
          | .ok fullTypingsFormatted =>
            let outputLocation := buildOutputLocation ctx1
            let tr2 := tr0 ++ tr1 ++ [Event.wrote outputLocation fullTypingsFormatted]
            let s2 := clearState s1
            if ctx1.watch then
              ( .ok { outputLocation := outputLocation, abiJsonFileLocation := abiPath }
              , { ctx1 with watch := false }, s2
              , tr2 ++ [Event.watchRegistered abiPath] )
            else
              ( .ok { outputLocation := outputLocation, abiJsonFileLocation := abiPath }
              , ctx1, s2, tr2 )

/-- Whether an `Except` result is a success. -/
def exceptIsOk : Except GenError GenerateResponse → Bool
| .ok _ => true
| .error _ => false

/-- Whether the trace contains a file-write effect. -/
def traceHasWrite : List Event → Bool
| [] => false
| Event.wrote _ _ :: _ => true
| _ :: rest => traceHasWrite rest

/-- Whether the trace contains a read of the ABI source file. -/
def traceHasRead : List Event → Bool
| [] => false
| Event.readAbi _ :: _ => true
| _ :: rest => traceHasRead rest

/-- The wrapper that `buildMethodReturnContext` returns when the provider is a known one
(helper for stating theorems about the success branches). -/
def knownWrap : Provider → String → AbiItem → String
| .web3, t, item => web3BuildMethodReturnContext t item
| .ethers, t, item => ethersBuildMethodReturnContext t item
| .other _, _, _ => ""

/-- Characterization of one generated parameter entry (the spec's naming rule §4.4):
unnamed inputs get `parameter{index}`, tuple inputs use the synthesized reference name,
others the mapped primitive type. -/
def paramEntry (itemName : String) (i : Nat) (inp : AbiInput) : String :=
  (if inp.name = "" then "parameter" ++ toString i else inp.name) ++ ": " ++
    (if inp.type = "tuple" then capitalize itemName ++ "Request"
     else getSolidityTsType inp.type)

/-- The parameter entries of an input list, indexed from a given position. -/
def paramEntries (itemName : String) : Nat → List AbiInput → List String
| _, [] => []
| i, inp :: rest => paramEntry itemName i inp :: paramEntries itemName (i + 1) rest

/-- Concatenation of a list of strings. -/
def strConcat : List String → String
| [] => ""
| x :: xs => x ++ strConcat xs

/-- Comma-separated join of a list of entries. -/
def commaJoin : List String → String
| [] => ""
| e :: es => e ++ strConcat (es.map (fun x => ", " ++ x))

/-- One field of a synthesized multi-output response interface: the output's name is used
verbatim. -/
def responseField (o : AbiOutput) : String :=
  o.name ++ ": " ++ getSolidityTsType o.type ++ ";"

/-- One field of a synthesized tuple request interface: the component's name is used
verbatim and its type always goes through the primitive mapper. -/
def tupleField (c : AbiInput) : String :=
  c.name ++ ": " ++ getSolidityTsType c.type ++ ";"

/-- Method names the interface loop records, in declaration order: a constructor
contributes the sentinel `new`, a function its own name (the spec's enumeration rule). -/
def specMethodNames : List AbiItem → List String
| [] => []
| item :: rest =>
  match item.type with
  | .constructorTag => "new" :: specMethodNames rest
  | .functionTag => item.name :: specMethodNames rest
  | _ => specMethodNames rest

/-- Event names the interface loop records, in declaration order. -/
def specEventNames : List AbiItem → List String
| [] => []
| item :: rest =>
  match item.type with
  | .eventTag => item.name :: specEventNames rest
  | _ => specEventNames rest

/-- A generator instance's accumulators as freshly constructed. -/
def emptyGenState : GenState :=
  { parametersAndReturnTypeInterfaces := [], events := [], methodNames := [] }

/-- A function item named `foo` with no inputs and no outputs. -/
def itemFnFoo : AbiItem :=
  { type := .functionTag, name := "foo", inputs := none, outputs := none,
    payable := none, constant := none, stateMutability := none }

/-- A function item named `bar` with two outputs both carrying the empty name. -/
def itemTwoUnnamedOutputs : AbiItem :=
  { type := .functionTag, name := "bar", inputs := none,
    outputs := some [{ name := "", type := "uint256" }, { name := "", type := "bool" }],
    payable := none, constant := none, stateMutability := none }

/-- A function item named `bar` whose first input carries the empty name. -/
def itemUnnamedInput : AbiItem :=
  { type := .functionTag, name := "bar",
    inputs := some [AbiInput.mk "" "address" none [], AbiInput.mk "owner" "address" none []],
    outputs := none, payable := none, constant := none, stateMutability := none }

/-- A function item with exactly one output. -/
def itemOneOutput : AbiItem :=
  { type := .functionTag, name := "bal", inputs := none,
    outputs := some [{ name := "a", type := "uint256" }],
    payable := none, constant := none, stateMutability := none }

/-- A constructor item (no name, as emitted by compilers). -/
def itemCtor : AbiItem :=
  { type := .constructorTag, name := "", inputs := none, outputs := none,
    payable := none, constant := none, stateMutability := none }

/-- A composite input whose component `a` is itself composite. -/
def inpNestedTuple : AbiInput :=
  AbiInput.mk "outer" "tuple" none
    [AbiInput.mk "a" "tuple" none [AbiInput.mk "b" "uint256" none []]]

/-- Caller prettier options with a non-typescript parser. -/
def poBabel : PrettierOptions :=
  { parser := "babel", trailingComma := "es5", singleQuote := true,
    bracketSpacing := true, printWidth := 80 }

/-- A context selecting the web3 provider, with no caller prettier options. -/
def ctxWeb3 : GeneratorContext :=
  { abiFileLocation := "abi.json", name := none, outputPathDirectory := some "out",
    provider := .web3, prettierOptions := none, watch := false }

/-- A context whose provider is an unrecognized value. -/
def ctxUnknownProvider : GeneratorContext :=
  { ctxWeb3 with provider := .other "foo" }

/-- A context with caller prettier options and the watch flag set. -/
def ctxWithPrettier : GeneratorContext :=
  { ctxWeb3 with prettierOptions := some poBabel, watch := true }

/-- An environment where the ABI file parses to a JSON object (valid JSON, not an
array), every path is a directory, and prettier accepts everything. -/
def envJsonObject : Env :=
  { isDirectory := fun _ => true, fileExists := fun _ => true,
    parseFile := fun _ => some AbiJson.nonArray, prettierAccepts := fun _ => true }

/-- An environment where the ABI file exists but its content is not valid JSON. -/
def envParseFailure : Env :=
  { isDirectory := fun _ => true, fileExists := fun _ => true,
    parseFile := fun _ => none, prettierAccepts := fun _ => true }

/-- An environment where the ABI file parses to the one-function array `[foo]`. -/
def envAbiFnFoo : Env :=
  { isDirectory := fun _ => true, fileExists := fun _ => true,
    parseFile := fun _ => some (AbiJson.arr [itemFnFoo]), prettierAccepts := fun _ => true }

/-- An environment where the ABI file parses to the empty JSON array. -/
def envAbiEmptyArr : Env :=
  { isDirectory := fun _ => true, fileExists := fun _ => true,
    parseFile := fun _ => some (AbiJson.arr []), prettierAccepts := fun _ => true }

theorem tuplePropsLoop_eq (comps : List AbiInput) :
    ∀ acc, tuplePropsLoop comps acc = acc ++ strConcat (comps.map tupleField) := by
  induction comps with
  | nil => intro acc; simp [tuplePropsLoop, strConcat]
  | cons c rest ih =>
    intro acc
    simp only [tuplePropsLoop, List.map_cons, strConcat, ih, tupleField,
      String.append_assoc]

theorem outputPropsLoop_eq (outs : List AbiOutput) :
    ∀ acc, outputPropsLoop outs acc = acc ++ strConcat (outs.map responseField) := by
  induction outs with
  | nil => intro acc; simp [outputPropsLoop, strConcat]
  | cons o rest ih =>
    intro acc
    simp only [outputPropsLoop, List.map_cons, strConcat, ih, responseField,
      String.append_assoc]

theorem two_le_paramEntry_length (nm : String) (i : Nat) (inp : AbiInput) :
    2 ≤ (paramEntry nm i inp).length := by
  have h : ∀ x y : String, 2 ≤ (x ++ ": " ++ y).length := by
    intro x y
    have h2 : (": " : String).length = 2 := rfl
    simp [String.length_append, h2]
    omega
  unfold paramEntry
  exact h _ _

theorem buildParamsLoop_text_long (nm : String) (l : List AbiInput) :
    ∀ i acc s, 1 < acc.length →
      (buildParamsLoop nm l i acc s).1 =
        acc ++ strConcat ((paramEntries nm i l).map (fun e => ", " ++ e)) := by
  induction l with
  | nil =>
    intro i acc s _
    simp [buildParamsLoop, paramEntries, strConcat]
  | cons inp rest ih =>
    intro i acc s hacc
    have hif : (if acc.length > 1 then acc ++ ", " else acc) = acc ++ ", " := by
      simp [hacc]
    have hlen : ∀ t : String,
        1 < ((acc ++ ", ") ++ (paramEntry nm i inp)).length := by
      intro _
      have h1 := two_le_paramEntry_length nm i inp
      simp [String.length_append]
      omega
    by_cases ht : inp.type = "tuple"
    · have hstep :
          buildParamsLoop nm (inp :: rest) i acc s =
            buildParamsLoop nm rest (i + 1)
              ((acc ++ ", ") ++
                ((if inp.name = "" then "parameter" ++ toString i else inp.name) ++ ": " ++
                  (buildTupleParametersInterface nm inp s).1))
              (buildTupleParametersInterface nm inp s).2 := by
        simp [buildParamsLoop, hif, ht, String.append_assoc]
      have hentry :
          (if inp.name = "" then "parameter" ++ toString i else inp.name) ++ ": " ++
              (buildTupleParametersInterface nm inp s).1 = paramEntry nm i inp := by
        simp [paramEntry, ht, buildTupleParametersInterface]
      rw [hstep, hentry, ih]
      · simp [paramEntries, strConcat, String.append_assoc]
      · have h1 := two_le_paramEntry_length nm i inp
        simp [String.length_append]
        omega
    · have hstep :
          buildParamsLoop nm (inp :: rest) i acc s =
            buildParamsLoop nm rest (i + 1)
              ((acc ++ ", ") ++
                ((if inp.name = "" then "parameter" ++ toString i else inp.name) ++ ": " ++
                  getSolidityTsType inp.type)) s := by
        simp [buildParamsLoop, hif, ht, String.append_assoc]
      have hentry :
          (if inp.name = "" then "parameter" ++ toString i else inp.name) ++ ": " ++
              getSolidityTsType inp.type = paramEntry nm i inp := by
        simp [paramEntry, ht]
      rw [hstep, hentry, ih]
      · simp [paramEntries, strConcat, String.append_assoc]
      · have h1 := two_le_paramEntry_length nm i inp
        simp [String.length_append]
        omega

theorem buildParamsLoop_text (nm : String) (l : List AbiInput) (i : Nat) (s : GenState) :
    (buildParamsLoop nm l i "(" s).1 = "(" ++ commaJoin (paramEntries nm i l) := by
  cases l with
  | nil => simp [buildParamsLoop, paramEntries, commaJoin]
  | cons inp rest =>
    have hone : ("(" : String).length = 1 := rfl
    by_cases ht : inp.type = "tuple"
    · have hstep :
          buildParamsLoop nm (inp :: rest) i "(" s =
            buildParamsLoop nm rest (i + 1) ("(" ++ paramEntry nm i inp)
              (buildTupleParametersInterface nm inp s).2 := by
        simp [buildParamsLoop, hone, ht, paramEntry, buildTupleParametersInterface,
          String.append_assoc]
      rw [hstep, buildParamsLoop_text_long]
      · simp [paramEntries, commaJoin, String.append_assoc]
      · have h1 := two_le_paramEntry_length nm i inp
        simp [String.length_append]
        omega
    · have hstep :
          buildParamsLoop nm (inp :: rest) i "(" s =
            buildParamsLoop nm rest (i + 1) ("(" ++ paramEntry nm i inp) s := by
        simp [buildParamsLoop, hone, ht, paramEntry, String.append_assoc]
      rw [hstep, buildParamsLoop_text_long]
      · simp [paramEntries, commaJoin, String.append_assoc]
      · have h1 := two_le_paramEntry_length nm i inp
        simp [String.length_append]
        omega

theorem buildMethodReturnContext_known (p : Provider) (t : String) (item : AbiItem)
    (hp : p.isKnown = true) :
    buildMethodReturnContext p t item = .ok (knownWrap p t item) := by
  cases p with
  | web3 => rfl
  | ethers => rfl
  | other v => simp [Provider.isKnown] at hp

theorem buildMethodReturnContext_other (v : String) (t : String) (item : AbiItem) :
    buildMethodReturnContext (.other v) t item = .error (.unknownProvider v) := rfl

theorem bprti_state_indep (p q : Provider) (item : AbiItem) (s : GenState) :
    (buildPropertyReturnTypeInterface p item s).2 =
      (buildPropertyReturnTypeInterface q item s).2 := by
  unfold buildPropertyReturnTypeInterface
  match item.outputs with
  | none => rfl
  | some [] => rfl
  | some [o] => rfl
  | some (o1 :: o2 :: rest) => rfl

theorem bprti_names (p : Provider) (item : AbiItem) (s : GenState) :
    (buildPropertyReturnTypeInterface p item s).2.events = s.events ∧
      (buildPropertyReturnTypeInterface p item s).2.methodNames = s.methodNames := by
  unfold buildPropertyReturnTypeInterface
  match item.outputs with
  | none => exact ⟨rfl, rfl⟩
  | some [] => exact ⟨rfl, rfl⟩
  | some [o] => exact ⟨rfl, rfl⟩
  | some (o1 :: o2 :: rest) => exact ⟨rfl, rfl⟩

theorem bprti_ok (p : Provider) (item : AbiItem) (s : GenState) (hp : p.isKnown = true) :
    ∃ t, (buildPropertyReturnTypeInterface p item s).1 = .ok t := by
  unfold buildPropertyReturnTypeInterface
  match item.outputs with
  | none => exact ⟨_, buildMethodReturnContext_known p _ item hp⟩
  | some [] => exact ⟨_, buildMethodReturnContext_known p _ item hp⟩
  | some [o] => exact ⟨_, buildMethodReturnContext_known p _ item hp⟩
  | some (o1 :: o2 :: rest) => exact ⟨_, buildMethodReturnContext_known p _ item hp⟩

theorem bprti_other (v : String) (item : AbiItem) (s : GenState) :
    (buildPropertyReturnTypeInterface (.other v) item s).1 =
      .error (.unknownProvider v) := by
  unfold buildPropertyReturnTypeInterface
  match item.outputs with
  | none => rfl
  | some [] => rfl
  | some [o] => rfl
  | some (o1 :: o2 :: rest) => rfl

theorem buildParamsLoop_names (nm : String) (l : List AbiInput) :
    ∀ i acc s, (buildParamsLoop nm l i acc s).2.events = s.events ∧
      (buildParamsLoop nm l i acc s).2.methodNames = s.methodNames := by
  induction l with
  | nil => intro i acc s; exact ⟨rfl, rfl⟩
  | cons inp rest ih =>
    intro i acc s
    by_cases ht : inp.type = "tuple"
    · simp only [buildParamsLoop, ht, if_true]
      exact ih _ _ _
    · simp only [buildParamsLoop, ht, if_false]
      exact ih _ _ _

theorem buildParameters_names (item : AbiItem) (s : GenState) :
    (buildParameters item s).2.events = s.events ∧
      (buildParameters item s).2.methodNames = s.methodNames := by
  unfold buildParameters
  match item.inputs with
  | none => exact ⟨rfl, rfl⟩
  | some inputs => exact buildParamsLoop_names item.name inputs 0 "(" s

theorem bpart_state_indep (p q : Provider) (item : AbiItem) (s : GenState) :
    (buildParametersAndReturnTypes p item s).2 =
      (buildParametersAndReturnTypes q item s).2 := by
  unfold buildParametersAndReturnTypes
  have h := bprti_state_indep p q item (buildParameters item s).2
  rcases hp : buildPropertyReturnTypeInterface p item (buildParameters item s).2 with ⟨rp, sp⟩
  rcases hq : buildPropertyReturnTypeInterface q item (buildParameters item s).2 with ⟨rq, sq⟩
  rw [hp, hq] at h
  simp at h
  cases rp <;> cases rq <;> simp [hp, hq, h]

theorem bpart_ok (p : Provider) (item : AbiItem) (s : GenState) (hp : p.isKnown = true) :
    ∃ t, (buildParametersAndReturnTypes p item s).1 = .ok t := by
  unfold buildParametersAndReturnTypes
  obtain ⟨t, ht⟩ := bprti_ok p item (buildParameters item s).2 hp
  rcases hpair : buildPropertyReturnTypeInterface p item (buildParameters item s).2 with ⟨r, s2⟩
  rw [hpair] at ht
  simp at ht
  subst ht
  simp [hpair]

theorem bpart_other (v : String) (item : AbiItem) (s : GenState) :
    (buildParametersAndReturnTypes (.other v) item s).1 =
      .error (.unknownProvider v) := by
  unfold buildParametersAndReturnTypes
  have ht := bprti_other v item (buildParameters item s).2
  rcases hpair : buildPropertyReturnTypeInterface (.other v) item (buildParameters item s).2
    with ⟨r, s2⟩
  rw [hpair] at ht
  simp at ht
  subst ht
  simp [hpair]

theorem bpart_names (p : Provider) (item : AbiItem) (s : GenState) :
    (buildParametersAndReturnTypes p item s).2.events = s.events ∧
      (buildParametersAndReturnTypes p item s).2.methodNames = s.methodNames := by
  unfold buildParametersAndReturnTypes
  have h1 := buildParameters_names item s
  have h2 := bprti_names p item (buildParameters item s).2
  rcases hpair : buildPropertyReturnTypeInterface p item (buildParameters item s).2
    with ⟨r, s2⟩
  rw [hpair] at h2
  simp at h2
  cases r <;> simp [hpair, h2.1, h2.2, h1.1, h1.2]

theorem buildAbiProps_names (p : Provider) (hp : p.isKnown = true) (items : List AbiItem) :
    ∀ acc s, ∃ t s1, buildAbiProps p items acc s = (.ok t, s1) ∧
      s1.methodNames = s.methodNames ++ specMethodNames items ∧
      s1.events = s.events ++ specEventNames items := by
  induction items with
  | nil =>
    intro acc s
    exact ⟨acc, s, rfl, by simp [specMethodNames], by simp [specEventNames]⟩
  | cons item rest ih =>
    intro acc s
    cases hty : item.type with
    | constructorTag =>
      obtain ⟨t0, ht0⟩ :=
        bpart_ok p item { s with methodNames := s.methodNames ++ ["new"] } hp
      have hnm := bpart_names p item { s with methodNames := s.methodNames ++ ["new"] }
      rcases hpair : buildParametersAndReturnTypes p item
          { s with methodNames := s.methodNames ++ ["new"] } with ⟨r, s2⟩
      rw [hpair] at ht0 hnm
      simp at ht0 hnm
      subst ht0
      obtain ⟨t1, s3, hrec, hm, he⟩ := ih (acc ++ buildInterfacePropertyDocs item ++
        "\x27new\x27" ++ t0 ++ ";") s2
      refine ⟨t1, s3, ?_, ?_, ?_⟩
      · simp only [buildAbiProps, hty, hpair]
        rw [← hrec]
      · rw [hm, hnm.2]
        simp [specMethodNames, hty]
      · rw [he, hnm.1]
        simp [specEventNames, hty]
    | functionTag =>
      obtain ⟨t0, ht0⟩ :=
        bpart_ok p item { s with methodNames := s.methodNames ++ [item.name] } hp
      have hnm := bpart_names p item { s with methodNames := s.methodNames ++ [item.name] }
      rcases hpair : buildParametersAndReturnTypes p item
          { s with methodNames := s.methodNames ++ [item.name] } with ⟨r, s2⟩
      rw [hpair] at ht0 hnm
      simp at ht0 hnm
      subst ht0
      obtain ⟨t1, s3, hrec, hm, he⟩ := ih (acc ++ buildInterfacePropertyDocs item ++
        item.name ++ t0 ++ ";") s2
      refine ⟨t1, s3, ?_, ?_, ?_⟩
      · simp only [buildAbiProps, hty, hpair]
        rw [← hrec]
      · rw [hm, hnm.2]
        simp [specMethodNames, hty]
      · rw [he, hnm.1]
        simp [specEventNames, hty]
    | eventTag =>
      obtain ⟨t1, s3, hrec, hm, he⟩ := ih acc { s with events := s.events ++ [item.name] }
      refine ⟨t1, s3, ?_, ?_, ?_⟩
      · simp only [buildAbiProps, hty]
        exact hrec
      · rw [hm]
        simp [specMethodNames, hty]
      · rw [he]
        simp [specEventNames, hty]
    | otherTag tag =>
      obtain ⟨t1, s3, hrec, hm, he⟩ := ih acc s
      refine ⟨t1, s3, ?_, ?_, ?_⟩
      · simp only [buildAbiProps, hty]
        exact hrec
      · rw [hm]
        simp [specMethodNames, hty]
      · rw [he]
        simp [specEventNames, hty]

theorem buildAbiProps_state_eq (p q : Provider) (hp : p.isKnown = true)
    (hq : q.isKnown = true) (items : List AbiItem) :
    ∀ acc1 acc2 s, (buildAbiProps p items acc1 s).2 = (buildAbiProps q items acc2 s).2 := by
  induction items with
  | nil => intro acc1 acc2 s; rfl
  | cons item rest ih =>
    intro acc1 acc2 s
    cases hty : item.type with
    | constructorTag =>
      obtain ⟨tp, htp⟩ :=
        bpart_ok p item { s with methodNames := s.methodNames ++ ["new"] } hp
      obtain ⟨tq, htq⟩ :=
        bpart_ok q item { s with methodNames := s.methodNames ++ ["new"] } hq
      have hst := bpart_state_indep p q item { s with methodNames := s.methodNames ++ ["new"] }
      rcases hpp : buildParametersAndReturnTypes p item
          { s with methodNames := s.methodNames ++ ["new"] } with ⟨rp, sp⟩
      rcases hqq : buildParametersAndReturnTypes q item
          { s with methodNames := s.methodNames ++ ["new"] } with ⟨rq, sq⟩
      rw [hpp] at htp hst
      rw [hqq] at htq hst
      simp at htp htq hst
      subst htp
      subst htq
      subst hst
      simp only [buildAbiProps, hty, hpp, hqq]
      exact ih _ _ _
    | functionTag =>
      obtain ⟨tp, htp⟩ :=
        bpart_ok p item { s with methodNames := s.methodNames ++ [item.name] } hp
      obtain ⟨tq, htq⟩ :=
        bpart_ok q item { s with methodNames := s.methodNames ++ [item.name] } hq
      have hst := bpart_state_indep p q item
        { s with methodNames := s.methodNames ++ [item.name] }
      rcases hpp : buildParametersAndReturnTypes p item
          { s with methodNames := s.methodNames ++ [item.name] } with ⟨rp, sp⟩
      rcases hqq : buildParametersAndReturnTypes q item
          { s with methodNames := s.methodNames ++ [item.name] } with ⟨rq, sq⟩
      rw [hpp] at htp hst
      rw [hqq] at htq hst
      simp at htp htq hst
      subst htp
      subst htq
      subst hst
      simp only [buildAbiProps, hty, hpp, hqq]
      exact ih _ _ _
    | eventTag =>
      simp only [buildAbiProps, hty]
      exact ih _ _ _
    | otherTag tag =>
      simp only [buildAbiProps, hty]
      exact ih _ _ _

theorem buildAbiProps_other_error (v : String) (items : List AbiItem) :
    ∀ acc s, (∃ t, (buildAbiProps (.other v) items acc s).1 = .ok t) ∨
      (buildAbiProps (.other v) items acc s).1 = .error (.unknownProvider v) := by
  induction items with
  | nil => intro acc s; exact .inl ⟨acc, rfl⟩
  | cons item rest ih =>
    intro acc s
    cases hty : item.type with
    | constructorTag =>
      have herr := bpart_other v item { s with methodNames := s.methodNames ++ ["new"] }
      rcases hpair : buildParametersAndReturnTypes (.other v) item
          { s with methodNames := s.methodNames ++ ["new"] } with ⟨r, s2⟩
      rw [hpair] at herr
      simp at herr
      subst herr
      simp only [buildAbiProps, hty, hpair]
      exact .inr (by simp)
    | functionTag =>
      have herr := bpart_other v item { s with methodNames := s.methodNames ++ [item.name] }
      rcases hpair : buildParametersAndReturnTypes (.other v) item
          { s with methodNames := s.methodNames ++ [item.name] } with ⟨r, s2⟩
      rw [hpair] at herr
      simp at herr
      subst herr
      simp only [buildAbiProps, hty, hpair]
      exact .inr (by simp)
    | eventTag =>
      simp only [buildAbiProps, hty]
      exact ih _ _
    | otherTag tag =>
      simp only [buildAbiProps, hty]
      exact ih _ _

theorem getAbiJson_trace_no_write (env : Env) (p : String) :
    traceHasWrite (getAbiJson env p).2 = false := by
  unfold getAbiJson
  by_cases h : env.fileExists p
  · cases hp : env.parseFile p <;> simp [h, hp, traceHasWrite]
  · simp [h, traceHasWrite]

theorem getPrettierOptions_snd (c : GeneratorContext) :
    ((getPrettierOptions c).2).abiFileLocation = c.abiFileLocation ∧
    ((getPrettierOptions c).2).outputPathDirectory = c.outputPathDirectory ∧
    ((getPrettierOptions c).2).name = c.name ∧
    ((getPrettierOptions c).2).provider = c.provider ∧
    ((getPrettierOptions c).2).watch = c.watch ∧
    ((getPrettierOptions c).2).prettierOptions =
      c.prettierOptions.map (fun po => { po with parser := "typescript" }) := by
  cases h : c.prettierOptions <;> simp [getPrettierOptions, h]

/-- C1 counterexample: with an ABI source file whose content is a JSON object (valid
JSON, not an array), a directory output path and the web3 provider, `generate` does NOT
abort with a source-format error: it succeeds and an output file write occurs, refuting
the claim at this concrete input. -/
theorem C1_counterexample :
    (generate envJsonObject ctxWeb3 emptyGenState).1 =
      .ok { outputLocation := "out/abi.ts", abiJsonFileLocation := "abi.json" } ∧
    traceHasWrite (generate envJsonObject ctxWeb3 emptyGenState).2.2.2 = true := by
  exact ⟨rfl, rfl⟩

/-- C1 amended: a missing-or-unparsable source aborts with a source error before any
output write, but content that parses as valid JSON that is not an array is not
rejected — `generate` proceeds (the non-array value contributes no items) and an output
file is written. -/
theorem C1_amended_parse_vs_array (env : Env) (ctx : GeneratorContext) (s : GenState) :
    (env.isDirectory (getOutputPathDirectory (clearAllQuotesFromContextInfo ctx)) = true →
      env.fileExists (getAbiFileFullPathLocation (clearAllQuotesFromContextInfo ctx)) = true →
      env.parseFile (getAbiFileFullPathLocation (clearAllQuotesFromContextInfo ctx)) = none →
      (generate env ctx s).1 =
        .error (.abiFileNotJson
          (getAbiFileFullPathLocation (clearAllQuotesFromContextInfo ctx))) ∧
      traceHasWrite (generate env ctx s).2.2.2 = false) ∧
    (env.isDirectory (getOutputPathDirectory (clearAllQuotesFromContextInfo ctx)) = true →
      env.fileExists (getAbiFileFullPathLocation (clearAllQuotesFromContextInfo ctx)) = true →
      env.parseFile (getAbiFileFullPathLocation (clearAllQuotesFromContextInfo ctx)) =
        some AbiJson.nonArray →
      ctx.provider.isKnown = true →
      env.prettierAccepts (getPrettierOptions (clearAllQuotesFromContextInfo ctx)).1 = true →
      exceptIsOk (generate env ctx s).1 = true ∧
      traceHasWrite (generate env ctx s).2.2.2 = true) := by
  constructor
  · intro hdir hex hparse
    simp [generate, hdir, getAbiJson, hex, hparse, traceHasWrite]
  · intro hdir hex hparse hknown hfmt
    have hprov : (clearAllQuotesFromContextInfo ctx).provider = ctx.provider := rfl
    rcases hp : ctx.provider with _ | _ | v
    · by_cases hw : (getPrettierOptions (clearAllQuotesFromContextInfo ctx)).2.watch = true <;>
        simp [generate, hdir, getAbiJson, hex, hparse, hprov, hp, buildAbiInterface,
          buildAbiProps, abiItemsOf, buildFullTypings, providerPreamble,
          buildEventsInterface, formatText, hfmt, hw, exceptIsOk, traceHasWrite]
    · by_cases hw : (getPrettierOptions (clearAllQuotesFromContextInfo ctx)).2.watch = true <;>
        simp [generate, hdir, getAbiJson, hex, hparse, hprov, hp, buildAbiInterface,
          buildAbiProps, abiItemsOf, buildFullTypings, providerPreamble,
          buildEventsInterface, formatText, hfmt, hw, exceptIsOk, traceHasWrite]
    · rw [hp] at hknown
      simp [Provider.isKnown] at hknown

/-- C1 witness: the amended theorem applied at concrete inputs — an unparsable file
aborts with the source error and writes nothing; a JSON-object file succeeds and
writes. -/
theorem C1_witness :
    ((generate envParseFailure ctxWeb3 emptyGenState).1 =
        .error (.abiFileNotJson "abi.json") ∧
      traceHasWrite (generate envParseFailure ctxWeb3 emptyGenState).2.2.2 = false) ∧
    (exceptIsOk (generate envJsonObject ctxWeb3 emptyGenState).1 = true ∧
      traceHasWrite (generate envJsonObject ctxWeb3 emptyGenState).2.2.2 = true) := by
  constructor
  · exact (C1_amended_parse_vs_array envParseFailure ctxWeb3 emptyGenState).1 rfl rfl rfl
  · exact (C1_amended_parse_vs_array envJsonObject ctxWeb3 emptyGenState).2 rfl rfl rfl
      rfl rfl

/-- C2 counterexample: a function item `bar` with two outputs whose names are the empty
string yields a synthesized Response interface whose field names are the empty string
verbatim — not `parameter0`/`parameter1` — refuting the claim's Response-interface half
at this concrete input. -/
theorem C2_counterexample :
    (buildPropertyReturnTypeInterface Provider.web3 itemTwoUnnamedOutputs
        emptyGenState).2.parametersAndReturnTypeInterfaces =
      ["export interface BarResponse \x7b: BigNumber;: boolean;\x7d"] ∧
    ¬ (buildPropertyReturnTypeInterface Provider.web3 itemTwoUnnamedOutputs
        emptyGenState).2.parametersAndReturnTypeInterfaces =
      ["export interface BarResponse \x7bparameter0: BigNumber;parameter1: boolean;\x7d"] := by
  exact ⟨rfl, by decide⟩

/-- C2 amended: the `parameter{index}` fallback for empty names applies in the built
parameter list (zero-based position in the item's own inputs list), but in the fields of
a synthesized multi-output Response interface the output's name is used verbatim, so an
empty output name yields an empty field name. -/
theorem C2_amended_naming (p : Provider) (item : AbiItem) (s : GenState) :
    (∀ l, item.inputs = some l →
      (buildParameters item s).1 = "(" ++ commaJoin (paramEntries item.name 0 l) ++ ")") ∧
    (∀ o1 o2 rest, item.outputs = some (o1 :: o2 :: rest) →
      (buildPropertyReturnTypeInterface p item s).2.parametersAndReturnTypeInterfaces =
        s.parametersAndReturnTypeInterfaces ++
          [buildInterface (capitalize item.name ++ "Response")
            (strConcat ((o1 :: o2 :: rest).map responseField))]) := by
  constructor
  · intro l hl
    unfold buildParameters
    rw [hl]
    simp [buildParamsLoop_text]
  · intro o1 o2 rest hout
    unfold buildPropertyReturnTypeInterface
    rw [hout]
    simp [outputPropsLoop_eq]

/-- C2 witness: the amended theorem applied at concrete items — an unnamed first input
becomes `parameter0` in the parameter list, while unnamed outputs stay empty in the
Response interface fields. -/
theorem C2_witness :
    (buildParameters itemUnnamedInput emptyGenState).1 =
      "(parameter0: string, owner: string)" ∧
    (buildPropertyReturnTypeInterface Provider.ethers itemTwoUnnamedOutputs
        emptyGenState).2.parametersAndReturnTypeInterfaces =
      ["export interface BarResponse \x7b: BigNumber;: boolean;\x7d"] := by
  constructor
  · have h := (C2_amended_naming Provider.web3 itemUnnamedInput emptyGenState).1 _ rfl
    rw [h]
    rfl
  · have h := (C2_amended_naming Provider.ethers itemTwoUnnamedOutputs emptyGenState).2
      _ _ _ rfl
    rw [h]
    rfl

/-- C3 counterexample: a run whose provider is unrecognized throws after the building
pass has already pushed the method name `foo`, leaving the accumulator non-empty; a
second call on the same instance therefore starts from non-empty state and accumulates
`foo` twice — refuting reset-on-every-run at this concrete input. -/
theorem C3_counterexample :
    (generate envAbiFnFoo ctxUnknownProvider emptyGenState).1 =
      .error (.unknownProvider "foo") ∧
    (generate envAbiFnFoo ctxUnknownProvider emptyGenState).2.2.1 =
      { parametersAndReturnTypeInterfaces := [], events := [], methodNames := ["foo"] } ∧
    (generate envAbiFnFoo ctxUnknownProvider
        (generate envAbiFnFoo ctxUnknownProvider emptyGenState).2.2.1).2.2.1 =
      { parametersAndReturnTypeInterfaces := [], events := [],
        methodNames := ["foo", "foo"] } := by
  exact ⟨rfl, rfl, rfl⟩

/-- C3 amended: on every run that returns successfully the accumulator state is reset to
empty before `generate` returns (so consecutive successful runs start clean); a run that
throws after building has begun does not clear the accumulated state. -/
theorem C3_reset_on_success (env : Env) (ctx : GeneratorContext) (s : GenState)
    (h : exceptIsOk (generate env ctx s).1 = true) :
    (generate env ctx s).2.2.1 = emptyGenState := by
  revert h
  simp only [generate]
  repeat' split
  all_goals intro h
  all_goals simp_all [exceptIsOk, clearState, emptyGenState]

/-- C3 witness: a successful run started from a deliberately dirty accumulator returns
with the accumulator reset to empty. -/
theorem C3_witness :
    (generate envAbiEmptyArr ctxWeb3 ⟨["x"], ["y"], ["z"]⟩).2.2.1 = emptyGenState :=
  C3_reset_on_success envAbiEmptyArr ctxWeb3 ⟨["x"], ["y"], ["z"]⟩ rfl

/-- Classification of `buildAbiInterface` under an unrecognized provider: it either
succeeds (no function/constructor item was reached) or fails with exactly the
unknown-provider error. -/
theorem buildAbiInterface_other (v : String) (name : String) (abi : AbiJson)
    (s : GenState) :
    (∃ t s1, buildAbiInterface (.other v) name abi s = (.ok t, s1)) ∨
    (∃ s1, buildAbiInterface (.other v) name abi s = (.error (.unknownProvider v), s1)) := by
  unfold buildAbiInterface
  rcases buildAbiProps_other_error v (abiItemsOf abi) "" s with ⟨t, ht⟩ | herr
  · rcases hpair : buildAbiProps (.other v) (abiItemsOf abi) "" s with ⟨r, s1⟩
    rw [hpair] at ht
    simp at ht
    subst ht
    exact .inl ⟨buildInterface name t, s1, by simp [hpair]⟩
  · rcases hpair : buildAbiProps (.other v) (abiItemsOf abi) "" s with ⟨r, s1⟩
    rw [hpair] at herr
    simp at herr
    subst herr
    exact .inr ⟨s1, by simp [hpair]⟩

/-- C4 counterexample: with an unrecognized provider and a readable ABI file, the run
fails with the configuration error but the trace shows the ABI source file WAS read
before the error — refuting error-before-any-file-read at this concrete input. -/
theorem C4_counterexample :
    (generate envAbiEmptyArr ctxUnknownProvider emptyGenState).1 =
      .error (.unknownProvider "foo") ∧
    traceHasRead (generate envAbiEmptyArr ctxUnknownProvider emptyGenState).2.2.2 = true := by
  exact ⟨rfl, rfl⟩

/-- C4 amended: an unrecognized provider makes `generate` fail with the unknown-provider
configuration error and no output file is ever written, but the error is raised only
after the output-directory check and after the ABI source file has been read and
parsed. -/
theorem C4_amended_order (env : Env) (ctx : GeneratorContext) (s : GenState) (v : String)
    (j : AbiJson) (hp : ctx.provider = .other v)
    (hdir : env.isDirectory (getOutputPathDirectory (clearAllQuotesFromContextInfo ctx)) =
      true)
    (hex : env.fileExists (getAbiFileFullPathLocation (clearAllQuotesFromContextInfo ctx)) =
      true)
    (hparse : env.parseFile (getAbiFileFullPathLocation (clearAllQuotesFromContextInfo ctx)) =
      some j) :
    (generate env ctx s).1 = .error (.unknownProvider v) ∧
    traceHasRead (generate env ctx s).2.2.2 = true ∧
    traceHasWrite (generate env ctx s).2.2.2 = false := by
  have hprov : (clearAllQuotesFromContextInfo ctx).provider = ctx.provider := rfl
  rcases buildAbiInterface_other v (getAbiName (clearAllQuotesFromContextInfo ctx)) j s with
    ⟨t, s1, hbi⟩ | ⟨s1, hbi⟩
  · simp [generate, hdir, getAbiJson, hex, hparse, hprov, hp, hbi, buildFullTypings,
      providerPreamble, traceHasRead, traceHasWrite]
  · simp [generate, hdir, getAbiJson, hex, hparse, hprov, hp, hbi,
      traceHasRead, traceHasWrite]

/-- C4 witness: the amended theorem applied at a concrete unknown-provider context with a
readable one-function ABI. -/
theorem C4_witness :
    (generate envAbiFnFoo ctxUnknownProvider emptyGenState).1 =
      .error (.unknownProvider "foo") ∧
    traceHasRead (generate envAbiFnFoo ctxUnknownProvider emptyGenState).2.2.2 = true ∧
    traceHasWrite (generate envAbiFnFoo ctxUnknownProvider emptyGenState).2.2.2 = false :=
  C4_amended_order envAbiFnFoo ctxUnknownProvider emptyGenState "foo"
    (AbiJson.arr [itemFnFoo]) rfl rfl rfl rfl

/-- C5 confirmed: each call of the tuple expander appends exactly one request interface
named `Capitalize(itemName) + "Request"`, with one field per component in declaration
order; the other accumulators are untouched; and a second occurrence for the same owner
name appends a second, identically named declaration with no deduplication. -/
theorem C5_tuple_request_registration (name : String) (inp : AbiInput) (s : GenState) :
    (buildTupleParametersInterface name inp s).1 = capitalize name ++ "Request" ∧
    (buildTupleParametersInterface name inp s).2.parametersAndReturnTypeInterfaces =
      s.parametersAndReturnTypeInterfaces ++
        [buildInterface (capitalize name ++ "Request")
          (strConcat (inp.components.map tupleField))] ∧
    (buildTupleParametersInterface name inp s).2.events = s.events ∧
    (buildTupleParametersInterface name inp s).2.methodNames = s.methodNames ∧
    (buildTupleParametersInterface name inp
        (buildTupleParametersInterface name inp s).2).2.parametersAndReturnTypeInterfaces =
      s.parametersAndReturnTypeInterfaces ++
        [buildInterface (capitalize name ++ "Request")
           (strConcat (inp.components.map tupleField)),
         buildInterface (capitalize name ++ "Request")
           (strConcat (inp.components.map tupleField))] := by
  refine ⟨rfl, ?_, rfl, rfl, ?_⟩
  · simp [buildTupleParametersInterface, tuplePropsLoop_eq]
  · simp [buildTupleParametersInterface, tuplePropsLoop_eq]

/-- C6 counterexample: expanding a composite whose component `a` is itself composite
appends exactly ONE declaration, whose field `a` has the primitive-mapper fallback type
`any` — no recursive expansion, no nested declaration — refuting the claim at this
concrete input. -/
theorem C6_counterexample :
    (buildTupleParametersInterface "foo" inpNestedTuple
        emptyGenState).2.parametersAndReturnTypeInterfaces =
      ["export interface FooRequest \x7ba: any;\x7d"] ∧
    ((buildTupleParametersInterface "foo" inpNestedTuple
        emptyGenState).2.parametersAndReturnTypeInterfaces).length = 1 := by
  exact ⟨rfl, rfl⟩

/-- C6 amended: every component of a composite input — including components whose type is
itself composite — is mapped through the primitive type mapper (the composite tag maps to
the `any` fallback); exactly one declaration is appended per expansion, never more. -/
theorem C6_amended_primitive_mapping (name : String) (inp : AbiInput) (s : GenState) :
    ((buildTupleParametersInterface name inp s).2.parametersAndReturnTypeInterfaces).length =
      s.parametersAndReturnTypeInterfaces.length + 1 ∧
    (buildTupleParametersInterface name inp s).2.parametersAndReturnTypeInterfaces =
      s.parametersAndReturnTypeInterfaces ++
        [buildInterface (capitalize name ++ "Request")
          (strConcat (inp.components.map tupleField))] ∧
    getSolidityTsType "tuple" = "any" := by
  refine ⟨?_, ?_, rfl⟩
  · simp [buildTupleParametersInterface]
  · simp [buildTupleParametersInterface, tuplePropsLoop_eq]

/-- C7 confirmed: for a known provider, zero outputs give the provider-wrapped `void`,
one output gives the provider-wrapped mapped type, and two or more outputs register
exactly one `Capitalize(name)Response` interface with one field per output in output
order and return the provider-wrapped reference name. -/
theorem C7_return_shapes (p : Provider) (item : AbiItem) (s : GenState)
    (hp : p.isKnown = true) :
    ((item.outputs = none ∨ item.outputs = some []) →
      buildPropertyReturnTypeInterface p item s = (.ok (knownWrap p "void" item), s)) ∧
    (∀ o, item.outputs = some [o] →
      buildPropertyReturnTypeInterface p item s =
        (.ok (knownWrap p (getSolidityTsType o.type) item), s)) ∧
    (∀ o1 o2 rest, item.outputs = some (o1 :: o2 :: rest) →
      buildPropertyReturnTypeInterface p item s =
        (.ok (knownWrap p (capitalize item.name ++ "Response") item),
          { s with parametersAndReturnTypeInterfaces :=
              s.parametersAndReturnTypeInterfaces ++
                [buildInterface (capitalize item.name ++ "Response")
                  (strConcat ((o1 :: o2 :: rest).map responseField))] })) := by
  refine ⟨?_, ?_, ?_⟩
  · rintro (h | h) <;>
      simp [buildPropertyReturnTypeInterface, h,
        buildMethodReturnContext_known p _ item hp]
  · intro o h
    simp [buildPropertyReturnTypeInterface, h,
      buildMethodReturnContext_known p _ item hp]
  · intro o1 o2 rest h
    simp [buildPropertyReturnTypeInterface, h,
      buildMethodReturnContext_known p _ item hp, outputPropsLoop_eq]

/-- C7 witness: the three output shapes at concrete items under the web3 provider. -/
theorem C7_witness :
    buildPropertyReturnTypeInterface .web3 itemFnFoo emptyGenState =
      (.ok (knownWrap .web3 "void" itemFnFoo), emptyGenState) ∧
    buildPropertyReturnTypeInterface .web3 itemOneOutput emptyGenState =
      (.ok (knownWrap .web3 "BigNumber" itemOneOutput), emptyGenState) ∧
    buildPropertyReturnTypeInterface .web3 itemTwoUnnamedOutputs emptyGenState =
      (.ok (knownWrap .web3 "BarResponse" itemTwoUnnamedOutputs),
        { parametersAndReturnTypeInterfaces :=
            ["export interface BarResponse \x7b: BigNumber;: boolean;\x7d"],
          events := [], methodNames := [] }) := by
  refine ⟨(C7_return_shapes .web3 itemFnFoo emptyGenState rfl).1 (Or.inl rfl), ?_, ?_⟩
  · have h := (C7_return_shapes .web3 itemOneOutput emptyGenState rfl).2.1 _ rfl
    rw [h]
    rfl
  · have h := (C7_return_shapes .web3 itemTwoUnnamedOutputs emptyGenState rfl).2.2
      _ _ _ rfl
    rw [h]
    rfl

/-- C8 confirmed: over any ABI item sequence, the building pass under the web3 provider
and under the ethers provider leaves identical accumulator state — the same method names,
event names and auxiliary interface texts (and, the parameter builder taking no provider
at all, the same parameter names) — and both passes succeed; only provider-wrapped text
inside the returned interface body differs. -/
theorem C8_provider_state_invariance (abiName : String) (abi : AbiJson) (s : GenState) :
    (buildAbiInterface .web3 abiName abi s).2 = (buildAbiInterface .ethers abiName abi s).2 ∧
    (∃ t, (buildAbiInterface .web3 abiName abi s).1 = .ok t) ∧
    (∃ t, (buildAbiInterface .ethers abiName abi s).1 = .ok t) := by
  obtain ⟨tw, sw, hw1, _, _⟩ := buildAbiProps_names .web3 rfl (abiItemsOf abi) "" s
  obtain ⟨te, se, he1, _, _⟩ := buildAbiProps_names .ethers rfl (abiItemsOf abi) "" s
  have hst := buildAbiProps_state_eq .web3 .ethers rfl rfl (abiItemsOf abi) "" "" s
  rw [hw1, he1] at hst
  simp at hst
  refine ⟨?_, ⟨buildInterface abiName tw, ?_⟩, ⟨buildInterface abiName te, ?_⟩⟩
  · unfold buildAbiInterface
    rw [hw1, he1]
    simpa using hst
  · unfold buildAbiInterface
    rw [hw1]
  · unfold buildAbiInterface
    rw [he1]

/-- C9 confirmed: for every ABI item sequence (the empty one included) and known
provider, the building phase succeeds and the full output is the fixed-order
concatenation containing exactly one events name type and exactly one method-names type,
the method names being exactly the declared ones with any constructor contributing the
sentinel `new`. -/
theorem C9_name_types_total (p : Provider) (abiName : String) (abi : AbiJson)
    (s : GenState) (hp : p.isKnown = true) :
    ∃ abiTypedInterface s1 preamble evIface,
      buildAbiInterface p abiName abi s = (.ok abiTypedInterface, s1) ∧
      s1.methodNames = s.methodNames ++ specMethodNames (abiItemsOf abi) ∧
      s1.events = s.events ++ specEventNames (abiItemsOf abi) ∧
      buildFullTypings p abiName abi abiTypedInterface s1 =
        .ok (preamble ++ buildType (abiName ++ "Events") s1.events ++ evIface ++
          buildType (abiName ++ "MethodNames") s1.methodNames ++
          buildParametersAndReturnTypeInterfacesText s1 ++ abiTypedInterface) := by
  obtain ⟨t, s1, hbp, hm, he⟩ := buildAbiProps_names p hp (abiItemsOf abi) "" s
  cases p with
  | web3 =>
    refine ⟨buildInterface abiName t, s1, web3BuildWeb3Interfaces abiName,
      buildInterface (abiName ++ "EventsContext")
        (web3BuildEventInterfaceProperties (abiItemsOf abi)), ?_, hm, he, ?_⟩
    · unfold buildAbiInterface
      rw [hbp]
    · simp [buildFullTypings, providerPreamble, buildEventsInterface, buildEventsType,
        buildMethodNamesType]
  | ethers =>
    refine ⟨buildInterface abiName t, s1, ethersBuildEthersInterfaces abiName,
      buildInterface (abiName ++ "EventsContext")
        (ethersBuildEventInterfaceProperties (abiItemsOf abi)), ?_, hm, he, ?_⟩
    · unfold buildAbiInterface
      rw [hbp]
    · simp [buildFullTypings, providerPreamble, buildEventsInterface, buildEventsType,
        buildMethodNamesType]
  | other v => simp [Provider.isKnown] at hp

/-- C9 witness: the theorem applied to a concrete two-item sequence (a constructor and a
function) under the web3 provider, from a fresh accumulator. -/
theorem C9_witness :
    ∃ abiTypedInterface s1 preamble evIface,
      buildAbiInterface .web3 "Token" (.arr [itemCtor, itemFnFoo]) emptyGenState =
        (.ok abiTypedInterface, s1) ∧
      s1.methodNames = emptyGenState.methodNames ++
        specMethodNames (abiItemsOf (.arr [itemCtor, itemFnFoo])) ∧
      s1.events = emptyGenState.events ++
        specEventNames (abiItemsOf (.arr [itemCtor, itemFnFoo])) ∧
      buildFullTypings .web3 "Token" (.arr [itemCtor, itemFnFoo]) abiTypedInterface s1 =
        .ok (preamble ++ buildType ("Token" ++ "Events") s1.events ++ evIface ++
          buildType ("Token" ++ "MethodNames") s1.methodNames ++
          buildParametersAndReturnTypeInterfacesText s1 ++ abiTypedInterface) :=
  C9_name_types_total .web3 "Token" (.arr [itemCtor, itemFnFoo]) emptyGenState rfl

/-- C10 counterexample: a successful run with caller prettier options mutates the
context beyond quote-stripping and the watch flag — `prettierOptions.parser` is
overwritten to `typescript` in place — refuting the no-other-fields-modified claim at
this concrete input. -/
theorem C10_counterexample :
    (generate envJsonObject ctxWithPrettier emptyGenState).2.1.prettierOptions =
      some ({ poBabel with parser := "typescript" }) ∧
    ¬ (generate envJsonObject ctxWithPrettier emptyGenState).2.1.prettierOptions =
      ctxWithPrettier.prettierOptions := by
  exact ⟨rfl, by decide⟩

/-- C10 amended: every call strips single quotes from `abiFileLocation` and (when set)
`outputPathDirectory` in place, and leaves `name` and `provider` untouched; on a
successful run the watch flag ends up false (it is overwritten when the watcher is
registered) and `prettierOptions.parser` has been overwritten to `typescript` whenever
caller prettier options are present. -/
theorem C10_context_mutation (env : Env) (ctx : GeneratorContext) (s : GenState) :
    (generate env ctx s).2.1.abiFileLocation = removeQuotes ctx.abiFileLocation ∧
    (generate env ctx s).2.1.outputPathDirectory =
      ctx.outputPathDirectory.map removeQuotes ∧
    (generate env ctx s).2.1.name = ctx.name ∧
    (generate env ctx s).2.1.provider = ctx.provider ∧
    (exceptIsOk (generate env ctx s).1 = true →
      (generate env ctx s).2.1.watch = false ∧
      (generate env ctx s).2.1.prettierOptions =
        ctx.prettierOptions.map (fun po => { po with parser := "typescript" })) := by
  have hq := getPrettierOptions_snd (clearAllQuotesFromContextInfo ctx)
  simp only [generate]
  repeat' split
  all_goals
    simp_all [clearAllQuotesFromContextInfo, exceptIsOk]

/-- C10 witness: the amended theorem applied at a concrete successful run with caller
prettier options and the watch flag set. -/
theorem C10_witness :
    (generate envJsonObject ctxWithPrettier emptyGenState).2.1.name =
      ctxWithPrettier.name ∧
    (generate envJsonObject ctxWithPrettier emptyGenState).2.1.watch = false ∧
    (generate envJsonObject ctxWithPrettier emptyGenState).2.1.prettierOptions =
      ctxWithPrettier.prettierOptions.map (fun po => { po with parser := "typescript" }) := by
  have h := C10_context_mutation envJsonObject ctxWithPrettier emptyGenState
  exact ⟨h.2.2.1, (h.2.2.2.2 rfl).1, (h.2.2.2.2 rfl).2⟩

end AbiGen
